import Mathlib

/-!
Verification of the angular-geometry core of the 24-Mountains compass
application. The definitions below are shallow embeddings of the
TypeScript source: `MOUNTAINS` from `src/constants.ts`, the angle
normalization `((x % 360) + 360) % 360` (with JavaScript's truncated
remainder), the pointer-to-bearing conversion of `calculateRotation`,
the snap-on-release of `handleUp`, the facade-rotation wrap of
`handleFacadeRotationChange`, and the fetch wrappers `searchAddress`,
`getBatchAltitudes` and `analyzeDirection` with their transport
outcome made an explicit parameter.
-/

namespace Compass24

/-! ## JavaScript-style angle arithmetic -/

section AngleArith

variable {K : Type} [LinearOrderedField K] [FloorRing K]

/-- Truncation toward zero, matching how JavaScript's `%` divides. -/
def jsTrunc (x : K) : ℤ := if x < 0 then ⌈x⌉ else ⌊x⌋

/-- JavaScript remainder `x % y`, i.e. `x - y * trunc(x / y)`. -/
def jsRem (x y : K) : K := x - y * ((jsTrunc (x / y) : ℤ) : K)

/-- The source's normalization `((x % 360) + 360) % 360`
(`src/geminiService.ts` line 16, `src/App.tsx` line 209). -/
def normalize (x : K) : K := jsRem (jsRem x 360 + 360) 360

lemma jsRem_of_nonneg_lt {x : K} (h0 : 0 ≤ x) (h1 : x < 360) :
    jsRem x 360 = x := by
  have hd0 : (0 : K) ≤ x / 360 := by positivity
  have hd1 : x / 360 < 1 := by
    rw [div_lt_one (by norm_num : (0 : K) < 360)]; linarith
  have hfl : ⌊x / 360⌋ = 0 := Int.floor_eq_zero_iff.mpr ⟨hd0, hd1⟩
  have ht : jsTrunc (x / 360) = 0 := by
    rw [jsTrunc, if_neg (not_lt.mpr hd0), hfl]
  rw [jsRem, ht]
  push_cast
  ring

lemma jsRem_of_ge_lt {x : K} (h0 : 360 ≤ x) (h1 : x < 720) :
    jsRem x 360 = x - 360 := by
  have hd0 : (1 : K) ≤ x / 360 := by
    rw [le_div_iff₀ (by norm_num : (0 : K) < 360)]; linarith
  have hd1 : x / 360 < 2 := by
    rw [div_lt_iff₀ (by norm_num : (0 : K) < 360)]; linarith
  have hfl : ⌊x / 360⌋ = 1 := by
    rw [Int.floor_eq_iff]
    refine ⟨by exact_mod_cast hd0, by push_cast; linarith⟩
  have ht : jsTrunc (x / 360) = 1 := by
    rw [jsTrunc, if_neg (not_lt.mpr (le_trans (by norm_num) hd0)), hfl]
  rw [jsRem, ht]
  push_cast
  ring

lemma jsRem_of_neg_gt {x : K} (h0 : -360 < x) (h1 : x < 0) :
    jsRem x 360 = x := by
  have hd1 : x / 360 < 0 := by
    rw [div_neg_iff]; right; exact ⟨h1, by norm_num⟩
  have hd0 : (-1 : K) < x / 360 := by
    rw [lt_div_iff₀ (by norm_num : (0 : K) < 360)]; linarith
  have hcl : ⌈x / 360⌉ = 0 := by
    rw [Int.ceil_eq_zero_iff]
    exact ⟨hd0, le_of_lt hd1⟩
  have ht : jsTrunc (x / 360) = 0 := by
    rw [jsTrunc, if_pos hd1, hcl]
  rw [jsRem, ht]
  push_cast
  ring

lemma jsRem_bounds (x : K) : -360 < jsRem x 360 ∧ jsRem x 360 < 360 := by
  rcases lt_or_le x 0 with hx | hx
  · have ht : jsTrunc (x / 360) = ⌈x / 360⌉ := by
      rw [jsTrunc, if_pos (by
        rw [div_neg_iff]; right; exact ⟨hx, by norm_num⟩)]
    have hc1 : x / 360 ≤ (⌈x / 360⌉ : K) := Int.le_ceil _
    have hc2 : (⌈x / 360⌉ : K) < x / 360 + 1 := Int.ceil_lt_add_one _
    rw [div_le_iff₀ (by norm_num : (0 : K) < 360)] at hc1
    have hc2' : (⌈x / 360⌉ : K) * 360 < x + 360 := by
      have h360 := mul_lt_mul_of_pos_right hc2 (by norm_num : (0 : K) < 360)
      calc (⌈x / 360⌉ : K) * 360 < (x / 360 + 1) * 360 := h360
        _ = x + 360 := by field_simp
    rw [jsRem, ht]
    constructor <;> nlinarith
  · have ht : jsTrunc (x / 360) = ⌊x / 360⌋ := by
      rw [jsTrunc, if_neg (not_lt.mpr (by positivity))]
    have hf1 : (⌊x / 360⌋ : K) ≤ x / 360 := Int.floor_le _
    have hf2 : x / 360 < (⌊x / 360⌋ : K) + 1 := Int.lt_floor_add_one _
    have hf1' : (⌊x / 360⌋ : K) * 360 ≤ x := by
      have h360 := mul_le_mul_of_nonneg_right hf1 (by norm_num : (0 : K) ≤ 360)
      calc (⌊x / 360⌋ : K) * 360 ≤ (x / 360) * 360 := h360
        _ = x := by field_simp
    have hf2' : x < (⌊x / 360⌋ : K) * 360 + 360 := by
      have h360 := mul_lt_mul_of_pos_right hf2 (by norm_num : (0 : K) < 360)
      calc x = (x / 360) * 360 := by field_simp
        _ < ((⌊x / 360⌋ : K) + 1) * 360 := h360
        _ = (⌊x / 360⌋ : K) * 360 + 360 := by ring
    rw [jsRem, ht]
    constructor <;> linarith

lemma normalize_bounds (x : K) : 0 ≤ normalize x ∧ normalize x < 360 := by
  obtain ⟨h1, h2⟩ := jsRem_bounds x (K := K)
  rw [normalize]
  rcases lt_or_le (jsRem x 360 + 360) 360 with h | h
  · rw [jsRem_of_nonneg_lt (by linarith) h]
    constructor <;> linarith
  · rw [jsRem_of_ge_lt h (by linarith)]
    constructor <;> linarith

lemma normalize_eq_self {x : K} (h0 : 0 ≤ x) (h1 : x < 360) :
    normalize x = x := by
  rw [normalize, jsRem_of_nonneg_lt h0 h1,
    jsRem_of_ge_lt (by linarith) (by linarith)]
  ring

lemma normalize_eq_add_360 {x : K} (h0 : -360 < x) (h1 : x < 0) :
    normalize x = x + 360 := by
  rw [normalize, jsRem_of_neg_gt h0 h1,
    jsRem_of_nonneg_lt (by linarith) (by linarith)]

lemma normalize_idem (x : K) : normalize (normalize x) = normalize x := by
  obtain ⟨h0, h1⟩ := normalize_bounds x (K := K)
  exact normalize_eq_self h0 h1

lemma normalize_360 : normalize (360 : K) = 0 := by
  rw [normalize, jsRem_of_ge_lt (le_refl (360 : K)) (by norm_num)]
  norm_num
  rw [jsRem_of_ge_lt (le_refl (360 : K)) (by norm_num)]
  ring

end AngleArith

/-! ## The 24-Mountains sector table (`src/constants.ts`) -/

/-- One sector of the 24-Mountains circle (`src/types.ts`). -/
structure Mountain where
  id : String
  chineseName : String
  pinyin : String
  name : String
  element : String
  direction : String
  startDegree : ℚ
  endDegree : ℚ
  description : String
deriving DecidableEq

/-- The static sector table from `src/constants.ts`. -/
def MOUNTAINS : List Mountain := [
  ⟨"n1", "壬", "Ren", "Жэнь (С1)", "Water", "N1", 337.5, 352.5, "Вода Ян, Крыса"⟩,
  ⟨"n2", "子", "Zi", "Цзы (С2)", "Water", "N2", 352.5, 7.5, "Вода Инь, Император"⟩,
  ⟨"n3", "癸", "Gui", "Гуй (С3)", "Water", "N3", 7.5, 22.5, "Вода Инь"⟩,
  ⟨"ne1", "丑", "Chou", "Чоу (СВ1)", "Earth", "NE1", 22.5, 37.5, "Земля Инь, Бык"⟩,
  ⟨"ne2", "艮", "Gen", "Гэнь (СВ2)", "Earth", "NE2", 37.5, 52.5, "Триграмма Гора"⟩,
  ⟨"ne3", "寅", "Yin", "Инь (СВ3)", "Wood", "NE3", 52.5, 67.5, "Дерево Ян, Тигр"⟩,
  ⟨"e1", "甲", "Jia", "Цзя (В1)", "Wood", "E1", 67.5, 82.5, "Дерево Ян"⟩,
  ⟨"e2", "卯", "Mao", "Мао (В2)", "Wood", "E2", 82.5, 97.5, "Дерево Инь, Кролик"⟩,
  ⟨"e3", "乙", "Yi", "И (В3)", "Wood", "E3", 97.5, 112.5, "Дерево Инь"⟩,
  ⟨"se1", "辰", "Chen", "Чэнь (ЮВ1)", "Earth", "SE1", 112.5, 127.5, "Земля Ян, Дракон"⟩,
  ⟨"se2", "巽", "Xun", "Сюнь (ЮВ2)", "Wood", "SE2", 127.5, 142.5, "Триграмма Ветер"⟩,
  ⟨"se3", "巳", "Si", "Сы (ЮВ3)", "Fire", "SE3", 142.5, 157.5, "Огонь Ян, Змея"⟩,
  ⟨"s1", "丙", "Bing", "Бин (Ю1)", "Fire", "S1", 157.5, 172.5, "Огонь Ян"⟩,
  ⟨"s2", "午", "Wu", "У (Ю2)", "Fire", "S2", 172.5, 187.5, "Огонь Инь, Лошадь"⟩,
  ⟨"s3", "丁", "Ding", "Дин (Ю3)", "Fire", "S3", 187.5, 202.5, "Огонь Инь"⟩,
  ⟨"sw1", "未", "Wei", "Вэй (ЮЗ1)", "Earth", "SW1", 202.5, 217.5, "Земля Инь, Коза"⟩,
  ⟨"sw2", "坤", "Kun", "Кунь (ЮЗ2)", "Earth", "SW2", 217.5, 232.5, "Триграмма Земля"⟩,
  ⟨"sw3", "申", "Shen", "Шэнь (ЮЗ3)", "Metal", "SW3", 232.5, 247.5, "Металл Ян, Обезьяна"⟩,
  ⟨"w1", "庚", "Geng", "Гэн (З1)", "Metal", "W1", 247.5, 262.5, "Металл Ян"⟩,
  ⟨"w2", "酉", "You", "Ю (З2)", "Metal", "W2", 262.5, 277.5, "Металл Инь, Петух"⟩,
  ⟨"w3", "辛", "Xin", "Синь (З3)", "Metal", "W3", 277.5, 292.5, "Металл Инь"⟩,
  ⟨"nw1", "戌", "Xu", "Сюй (СЗ1)", "Earth", "NW1", 292.5, 307.5, "Земля Ян, Собака"⟩,
  ⟨"nw2", "乾", "Qian", "Цянь (СЗ2)", "Metal", "NW2", 307.5, 322.5, "Триграмма Небо"⟩,
  ⟨"nw3", "亥", "Hai", "Хай (СЗ3)", "Water", "NW3", 322.5, 337.5, "Вода Ян, Свинья"⟩]

/-- Sector containment: a non-wrapping sector matches `start ≤ a < end`;
the wrap-around sector (whose `endDegree < startDegree`) matches
`a ≥ start ∨ a < end`. -/
def containsDeg (m : Mountain) (a : ℚ) : Prop :=
  if m.endDegree < m.startDegree then a ≥ m.startDegree ∨ a < m.endDegree
  else m.startDegree ≤ a ∧ a < m.endDegree

instance (m : Mountain) (a : ℚ) : Decidable (containsDeg m a) := by
  unfold containsDeg
  infer_instance

lemma containsDeg_n1 (a : ℚ) :
    containsDeg (⟨"n1", "壬", "Ren", "Жэнь (С1)", "Water", "N1", 337.5, 352.5, "Вода Ян, Крыса"⟩ : Mountain) a ↔ (337.5 ≤ a ∧ a < 352.5) := by
  norm_num [containsDeg]

lemma containsDeg_n2 (a : ℚ) :
    containsDeg (⟨"n2", "子", "Zi", "Цзы (С2)", "Water", "N2", 352.5, 7.5, "Вода Инь, Император"⟩ : Mountain) a ↔ (352.5 ≤ a ∨ a < 7.5) := by
  norm_num [containsDeg]

lemma containsDeg_n3 (a : ℚ) :
    containsDeg (⟨"n3", "癸", "Gui", "Гуй (С3)", "Water", "N3", 7.5, 22.5, "Вода Инь"⟩ : Mountain) a ↔ (7.5 ≤ a ∧ a < 22.5) := by
  norm_num [containsDeg]

lemma containsDeg_ne1 (a : ℚ) :
    containsDeg (⟨"ne1", "丑", "Chou", "Чоу (СВ1)", "Earth", "NE1", 22.5, 37.5, "Земля Инь, Бык"⟩ : Mountain) a ↔ (22.5 ≤ a ∧ a < 37.5) := by
  norm_num [containsDeg]

lemma containsDeg_ne2 (a : ℚ) :
    containsDeg (⟨"ne2", "艮", "Gen", "Гэнь (СВ2)", "Earth", "NE2", 37.5, 52.5, "Триграмма Гора"⟩ : Mountain) a ↔ (37.5 ≤ a ∧ a < 52.5) := by
  norm_num [containsDeg]

lemma containsDeg_ne3 (a : ℚ) :
    containsDeg (⟨"ne3", "寅", "Yin", "Инь (СВ3)", "Wood", "NE3", 52.5, 67.5, "Дерево Ян, Тигр"⟩ : Mountain) a ↔ (52.5 ≤ a ∧ a < 67.5) := by
  norm_num [containsDeg]

lemma containsDeg_e1 (a : ℚ) :
    containsDeg (⟨"e1", "甲", "Jia", "Цзя (В1)", "Wood", "E1", 67.5, 82.5, "Дерево Ян"⟩ : Mountain) a ↔ (67.5 ≤ a ∧ a < 82.5) := by
  norm_num [containsDeg]

lemma containsDeg_e2 (a : ℚ) :
    containsDeg (⟨"e2", "卯", "Mao", "Мао (В2)", "Wood", "E2", 82.5, 97.5, "Дерево Инь, Кролик"⟩ : Mountain) a ↔ (82.5 ≤ a ∧ a < 97.5) := by
  norm_num [containsDeg]

lemma containsDeg_e3 (a : ℚ) :
    containsDeg (⟨"e3", "乙", "Yi", "И (В3)", "Wood", "E3", 97.5, 112.5, "Дерево Инь"⟩ : Mountain) a ↔ (97.5 ≤ a ∧ a < 112.5) := by
  norm_num [containsDeg]

lemma containsDeg_se1 (a : ℚ) :
    containsDeg (⟨"se1", "辰", "Chen", "Чэнь (ЮВ1)", "Earth", "SE1", 112.5, 127.5, "Земля Ян, Дракон"⟩ : Mountain) a ↔ (112.5 ≤ a ∧ a < 127.5) := by
  norm_num [containsDeg]

lemma containsDeg_se2 (a : ℚ) :
    containsDeg (⟨"se2", "巽", "Xun", "Сюнь (ЮВ2)", "Wood", "SE2", 127.5, 142.5, "Триграмма Ветер"⟩ : Mountain) a ↔ (127.5 ≤ a ∧ a < 142.5) := by
  norm_num [containsDeg]

lemma containsDeg_se3 (a : ℚ) :
    containsDeg (⟨"se3", "巳", "Si", "Сы (ЮВ3)", "Fire", "SE3", 142.5, 157.5, "Огонь Ян, Змея"⟩ : Mountain) a ↔ (142.5 ≤ a ∧ a < 157.5) := by
  norm_num [containsDeg]

lemma containsDeg_s1 (a : ℚ) :
    containsDeg (⟨"s1", "丙", "Bing", "Бин (Ю1)", "Fire", "S1", 157.5, 172.5, "Огонь Ян"⟩ : Mountain) a ↔ (157.5 ≤ a ∧ a < 172.5) := by
  norm_num [containsDeg]

lemma containsDeg_s2 (a : ℚ) :
    containsDeg (⟨"s2", "午", "Wu", "У (Ю2)", "Fire", "S2", 172.5, 187.5, "Огонь Инь, Лошадь"⟩ : Mountain) a ↔ (172.5 ≤ a ∧ a < 187.5) := by
  norm_num [containsDeg]

lemma containsDeg_s3 (a : ℚ) :
    containsDeg (⟨"s3", "丁", "Ding", "Дин (Ю3)", "Fire", "S3", 187.5, 202.5, "Огонь Инь"⟩ : Mountain) a ↔ (187.5 ≤ a ∧ a < 202.5) := by
  norm_num [containsDeg]

lemma containsDeg_sw1 (a : ℚ) :
    containsDeg (⟨"sw1", "未", "Wei", "Вэй (ЮЗ1)", "Earth", "SW1", 202.5, 217.5, "Земля Инь, Коза"⟩ : Mountain) a ↔ (202.5 ≤ a ∧ a < 217.5) := by
  norm_num [containsDeg]

lemma containsDeg_sw2 (a : ℚ) :
    containsDeg (⟨"sw2", "坤", "Kun", "Кунь (ЮЗ2)", "Earth", "SW2", 217.5, 232.5, "Триграмма Земля"⟩ : Mountain) a ↔ (217.5 ≤ a ∧ a < 232.5) := by
  norm_num [containsDeg]

lemma containsDeg_sw3 (a : ℚ) :
    containsDeg (⟨"sw3", "申", "Shen", "Шэнь (ЮЗ3)", "Metal", "SW3", 232.5, 247.5, "Металл Ян, Обезьяна"⟩ : Mountain) a ↔ (232.5 ≤ a ∧ a < 247.5) := by
  norm_num [containsDeg]

lemma containsDeg_w1 (a : ℚ) :
    containsDeg (⟨"w1", "庚", "Geng", "Гэн (З1)", "Metal", "W1", 247.5, 262.5, "Металл Ян"⟩ : Mountain) a ↔ (247.5 ≤ a ∧ a < 262.5) := by
  norm_num [containsDeg]

lemma containsDeg_w2 (a : ℚ) :
    containsDeg (⟨"w2", "酉", "You", "Ю (З2)", "Metal", "W2", 262.5, 277.5, "Металл Инь, Петух"⟩ : Mountain) a ↔ (262.5 ≤ a ∧ a < 277.5) := by
  norm_num [containsDeg]

lemma containsDeg_w3 (a : ℚ) :
    containsDeg (⟨"w3", "辛", "Xin", "Синь (З3)", "Metal", "W3", 277.5, 292.5, "Металл Инь"⟩ : Mountain) a ↔ (277.5 ≤ a ∧ a < 292.5) := by
  norm_num [containsDeg]

lemma containsDeg_nw1 (a : ℚ) :
    containsDeg (⟨"nw1", "戌", "Xu", "Сюй (СЗ1)", "Earth", "NW1", 292.5, 307.5, "Земля Ян, Собака"⟩ : Mountain) a ↔ (292.5 ≤ a ∧ a < 307.5) := by
  norm_num [containsDeg]

lemma containsDeg_nw2 (a : ℚ) :
    containsDeg (⟨"nw2", "乾", "Qian", "Цянь (СЗ2)", "Metal", "NW2", 307.5, 322.5, "Триграмма Небо"⟩ : Mountain) a ↔ (307.5 ≤ a ∧ a < 322.5) := by
  norm_num [containsDeg]

lemma containsDeg_nw3 (a : ℚ) :
    containsDeg (⟨"nw3", "亥", "Hai", "Хай (СЗ3)", "Water", "NW3", 322.5, 337.5, "Вода Ян, Свинья"⟩ : Mountain) a ↔ (322.5 ≤ a ∧ a < 337.5) := by
  norm_num [containsDeg]

set_option maxHeartbeats 4000000 in
lemma mountains_contains_unique (a : ℚ) :
    ∀ m ∈ MOUNTAINS, ∀ n ∈ MOUNTAINS, containsDeg m a → containsDeg n a → m = n := by
  intro m hm n hn hc hd
  simp only [MOUNTAINS, List.mem_cons, List.not_mem_nil, or_false] at hm hn
  rcases hm with rfl|rfl|rfl|rfl|rfl|rfl|rfl|rfl|rfl|rfl|rfl|rfl|rfl|rfl|rfl|rfl|rfl|rfl|rfl|rfl|rfl|rfl|rfl|rfl <;>
    simp only [containsDeg_n1, containsDeg_n2, containsDeg_n3, containsDeg_ne1, containsDeg_ne2, containsDeg_ne3, containsDeg_e1, containsDeg_e2, containsDeg_e3, containsDeg_se1, containsDeg_se2, containsDeg_se3, containsDeg_s1, containsDeg_s2, containsDeg_s3, containsDeg_sw1, containsDeg_sw2, containsDeg_sw3, containsDeg_w1, containsDeg_w2, containsDeg_w3, containsDeg_nw1, containsDeg_nw2, containsDeg_nw3] at hc <;>
    rcases hn with rfl|rfl|rfl|rfl|rfl|rfl|rfl|rfl|rfl|rfl|rfl|rfl|rfl|rfl|rfl|rfl|rfl|rfl|rfl|rfl|rfl|rfl|rfl|rfl <;>
    simp only [containsDeg_n1, containsDeg_n2, containsDeg_n3, containsDeg_ne1, containsDeg_ne2, containsDeg_ne3, containsDeg_e1, containsDeg_e2, containsDeg_e3, containsDeg_se1, containsDeg_se2, containsDeg_se3, containsDeg_s1, containsDeg_s2, containsDeg_s3, containsDeg_sw1, containsDeg_sw2, containsDeg_sw3, containsDeg_w1, containsDeg_w2, containsDeg_w3, containsDeg_nw1, containsDeg_nw2, containsDeg_nw3] at hd <;>
    first
      | rfl
      | (exfalso; linarith only [hc.1, hc.2, hd.1, hd.2])
      | (exfalso; rcases hc with hc | hc <;> linarith only [hc, hd.1, hd.2])
      | (exfalso; rcases hd with hd | hd <;> linarith only [hd, hc.1, hc.2])


set_option maxHeartbeats 1000000 in
lemma mountains_contains_exists (a : ℚ) (_h0 : 0 ≤ a) (_h1 : a < 360) :
    ∃ m ∈ MOUNTAINS, containsDeg m a := by
  by_cases c1 : a < 7.5
  · exact ⟨(⟨"n2", "子", "Zi", "Цзы (С2)", "Water", "N2", 352.5, 7.5, "Вода Инь, Император"⟩ : Mountain), by simp [MOUNTAINS], (containsDeg_n2 a).mpr (Or.inr c1)⟩
  by_cases c2 : a < 22.5
  · exact ⟨(⟨"n3", "癸", "Gui", "Гуй (С3)", "Water", "N3", 7.5, 22.5, "Вода Инь"⟩ : Mountain), by simp [MOUNTAINS], (containsDeg_n3 a).mpr ⟨by linarith, c2⟩⟩
  by_cases c3 : a < 37.5
  · exact ⟨(⟨"ne1", "丑", "Chou", "Чоу (СВ1)", "Earth", "NE1", 22.5, 37.5, "Земля Инь, Бык"⟩ : Mountain), by simp [MOUNTAINS], (containsDeg_ne1 a).mpr ⟨by linarith, c3⟩⟩
  by_cases c4 : a < 52.5
  · exact ⟨(⟨"ne2", "艮", "Gen", "Гэнь (СВ2)", "Earth", "NE2", 37.5, 52.5, "Триграмма Гора"⟩ : Mountain), by simp [MOUNTAINS], (containsDeg_ne2 a).mpr ⟨by linarith, c4⟩⟩
  by_cases c5 : a < 67.5
  · exact ⟨(⟨"ne3", "寅", "Yin", "Инь (СВ3)", "Wood", "NE3", 52.5, 67.5, "Дерево Ян, Тигр"⟩ : Mountain), by simp [MOUNTAINS], (containsDeg_ne3 a).mpr ⟨by linarith, c5⟩⟩
  by_cases c6 : a < 82.5
  · exact ⟨(⟨"e1", "甲", "Jia", "Цзя (В1)", "Wood", "E1", 67.5, 82.5, "Дерево Ян"⟩ : Mountain), by simp [MOUNTAINS], (containsDeg_e1 a).mpr ⟨by linarith, c6⟩⟩
  by_cases c7 : a < 97.5
  · exact ⟨(⟨"e2", "卯", "Mao", "Мао (В2)", "Wood", "E2", 82.5, 97.5, "Дерево Инь, Кролик"⟩ : Mountain), by simp [MOUNTAINS], (containsDeg_e2 a).mpr ⟨by linarith, c7⟩⟩
  by_cases c8 : a < 112.5
  · exact ⟨(⟨"e3", "乙", "Yi", "И (В3)", "Wood", "E3", 97.5, 112.5, "Дерево Инь"⟩ : Mountain), by simp [MOUNTAINS], (containsDeg_e3 a).mpr ⟨by linarith, c8⟩⟩
  by_cases c9 : a < 127.5
  · exact ⟨(⟨"se1", "辰", "Chen", "Чэнь (ЮВ1)", "Earth", "SE1", 112.5, 127.5, "Земля Ян, Дракон"⟩ : Mountain), by simp [MOUNTAINS], (containsDeg_se1 a).mpr ⟨by linarith, c9⟩⟩
  by_cases c10 : a < 142.5
  · exact ⟨(⟨"se2", "巽", "Xun", "Сюнь (ЮВ2)", "Wood", "SE2", 127.5, 142.5, "Триграмма Ветер"⟩ : Mountain), by simp [MOUNTAINS], (containsDeg_se2 a).mpr ⟨by linarith, c10⟩⟩
  by_cases c11 : a < 157.5
  · exact ⟨(⟨"se3", "巳", "Si", "Сы (ЮВ3)", "Fire", "SE3", 142.5, 157.5, "Огонь Ян, Змея"⟩ : Mountain), by simp [MOUNTAINS], (containsDeg_se3 a).mpr ⟨by linarith, c11⟩⟩
  by_cases c12 : a < 172.5
  · exact ⟨(⟨"s1", "丙", "Bing", "Бин (Ю1)", "Fire", "S1", 157.5, 172.5, "Огонь Ян"⟩ : Mountain), by simp [MOUNTAINS], (containsDeg_s1 a).mpr ⟨by linarith, c12⟩⟩
  by_cases c13 : a < 187.5
  · exact ⟨(⟨"s2", "午", "Wu", "У (Ю2)", "Fire", "S2", 172.5, 187.5, "Огонь Инь, Лошадь"⟩ : Mountain), by simp [MOUNTAINS], (containsDeg_s2 a).mpr ⟨by linarith, c13⟩⟩
  by_cases c14 : a < 202.5
  · exact ⟨(⟨"s3", "丁", "Ding", "Дин (Ю3)", "Fire", "S3", 187.5, 202.5, "Огонь Инь"⟩ : Mountain), by simp [MOUNTAINS], (containsDeg_s3 a).mpr ⟨by linarith, c14⟩⟩
  by_cases c15 : a < 217.5
  · exact ⟨(⟨"sw1", "未", "Wei", "Вэй (ЮЗ1)", "Earth", "SW1", 202.5, 217.5, "Земля Инь, Коза"⟩ : Mountain), by simp [MOUNTAINS], (containsDeg_sw1 a).mpr ⟨by linarith, c15⟩⟩
  by_cases c16 : a < 232.5
  · exact ⟨(⟨"sw2", "坤", "Kun", "Кунь (ЮЗ2)", "Earth", "SW2", 217.5, 232.5, "Триграмма Земля"⟩ : Mountain), by simp [MOUNTAINS], (containsDeg_sw2 a).mpr ⟨by linarith, c16⟩⟩
  by_cases c17 : a < 247.5
  · exact ⟨(⟨"sw3", "申", "Shen", "Шэнь (ЮЗ3)", "Metal", "SW3", 232.5, 247.5, "Металл Ян, Обезьяна"⟩ : Mountain), by simp [MOUNTAINS], (containsDeg_sw3 a).mpr ⟨by linarith, c17⟩⟩
  by_cases c18 : a < 262.5
  · exact ⟨(⟨"w1", "庚", "Geng", "Гэн (З1)", "Metal", "W1", 247.5, 262.5, "Металл Ян"⟩ : Mountain), by simp [MOUNTAINS], (containsDeg_w1 a).mpr ⟨by linarith, c18⟩⟩
  by_cases c19 : a < 277.5
  · exact ⟨(⟨"w2", "酉", "You", "Ю (З2)", "Metal", "W2", 262.5, 277.5, "Металл Инь, Петух"⟩ : Mountain), by simp [MOUNTAINS], (containsDeg_w2 a).mpr ⟨by linarith, c19⟩⟩
  by_cases c20 : a < 292.5
  · exact ⟨(⟨"w3", "辛", "Xin", "Синь (З3)", "Metal", "W3", 277.5, 292.5, "Металл Инь"⟩ : Mountain), by simp [MOUNTAINS], (containsDeg_w3 a).mpr ⟨by linarith, c20⟩⟩
  by_cases c21 : a < 307.5
  · exact ⟨(⟨"nw1", "戌", "Xu", "Сюй (СЗ1)", "Earth", "NW1", 292.5, 307.5, "Земля Ян, Собака"⟩ : Mountain), by simp [MOUNTAINS], (containsDeg_nw1 a).mpr ⟨by linarith, c21⟩⟩
  by_cases c22 : a < 322.5
  · exact ⟨(⟨"nw2", "乾", "Qian", "Цянь (СЗ2)", "Metal", "NW2", 307.5, 322.5, "Триграмма Небо"⟩ : Mountain), by simp [MOUNTAINS], (containsDeg_nw2 a).mpr ⟨by linarith, c22⟩⟩
  by_cases c23 : a < 337.5
  · exact ⟨(⟨"nw3", "亥", "Hai", "Хай (СЗ3)", "Water", "NW3", 322.5, 337.5, "Вода Ян, Свинья"⟩ : Mountain), by simp [MOUNTAINS], (containsDeg_nw3 a).mpr ⟨by linarith, c23⟩⟩
  by_cases c24 : a < 352.5
  · exact ⟨(⟨"n1", "壬", "Ren", "Жэнь (С1)", "Water", "N1", 337.5, 352.5, "Вода Ян, Крыса"⟩ : Mountain), by simp [MOUNTAINS], (containsDeg_n1 a).mpr ⟨by linarith, c24⟩⟩
  exact ⟨(⟨"n2", "子", "Zi", "Цзы (С2)", "Water", "N2", 352.5, 7.5, "Вода Инь, Император"⟩ : Mountain), by simp [MOUNTAINS], (containsDeg_n2 a).mpr (Or.inl (by linarith))⟩

/-- Claim C1: the static 24-entry sector table partitions the full circle:
every sector's range is 15 degrees wide, exactly one sector (direction code
N2, 352.5 to 7.5) has `endDegree < startDegree`, each sector's `endDegree`
equals the next sector's `startDegree` modulo 360 (cyclically), and for
every angle `a` in `[0, 360)` exactly one sector contains `a` (the
wrap-around sector matching when `a ≥ startDegree` or `a < endDegree`);
in particular angle 0 lies in the sector with code N2. -/
theorem mountains_sector_table :
    (∀ m ∈ MOUNTAINS,
      (if m.endDegree < m.startDegree then m.endDegree + 360 else m.endDegree)
        - m.startDegree = 15) ∧
    (∃! m, m ∈ MOUNTAINS ∧ m.endDegree < m.startDegree) ∧
    (∀ m ∈ MOUNTAINS, m.endDegree < m.startDegree →
      m.direction = "N2" ∧ m.startDegree = 352.5 ∧ m.endDegree = 7.5) ∧
    (∀ p ∈ MOUNTAINS.zip (MOUNTAINS.rotate 1),
      normalize p.1.endDegree = normalize p.2.startDegree) ∧
    (∀ a : ℚ, 0 ≤ a → a < 360 → ∃! m, m ∈ MOUNTAINS ∧ containsDeg m a) ∧
    (∃ m ∈ MOUNTAINS, m.direction = "N2" ∧ containsDeg m 0) := by
  refine ⟨?_, ?_, ?_, ?_, ?_, ?_⟩
  · intro m hm
    simp only [MOUNTAINS, List.mem_cons, List.not_mem_nil, or_false] at hm
    rcases hm with rfl|rfl|rfl|rfl|rfl|rfl|rfl|rfl|rfl|rfl|rfl|rfl|rfl|rfl|rfl|rfl|rfl|rfl|rfl|rfl|rfl|rfl|rfl|rfl <;>
      norm_num
  · refine ⟨(⟨"n2", "子", "Zi", "Цзы (С2)", "Water", "N2", 352.5, 7.5, "Вода Инь, Император"⟩ : Mountain), ⟨by simp [MOUNTAINS], by norm_num⟩, ?_⟩
    rintro m ⟨hm, hlt⟩
    simp only [MOUNTAINS, List.mem_cons, List.not_mem_nil, or_false] at hm
    rcases hm with rfl|rfl|rfl|rfl|rfl|rfl|rfl|rfl|rfl|rfl|rfl|rfl|rfl|rfl|rfl|rfl|rfl|rfl|rfl|rfl|rfl|rfl|rfl|rfl <;>
      first
        | rfl
        | (exfalso; revert hlt; norm_num)
  · intro m hm hlt
    simp only [MOUNTAINS, List.mem_cons, List.not_mem_nil, or_false] at hm
    rcases hm with rfl|rfl|rfl|rfl|rfl|rfl|rfl|rfl|rfl|rfl|rfl|rfl|rfl|rfl|rfl|rfl|rfl|rfl|rfl|rfl|rfl|rfl|rfl|rfl <;>
      (revert hlt; norm_num)
  · intro p hp
    simp only [MOUNTAINS, List.rotate] at hp
    norm_num at hp
    rcases hp with rfl|rfl|rfl|rfl|rfl|rfl|rfl|rfl|rfl|rfl|rfl|rfl|rfl|rfl|rfl|rfl|rfl|rfl|rfl|rfl|rfl|rfl|rfl|rfl <;> rfl
  · intro a h0 h1
    obtain ⟨m, hm, hc⟩ := mountains_contains_exists a h0 h1
    refine ⟨m, ⟨hm, hc⟩, ?_⟩
    rintro n ⟨hn, hcn⟩
    exact mountains_contains_unique a n hn m hm hcn hc
  · exact ⟨(⟨"n2", "子", "Zi", "Цзы (С2)", "Water", "N2", 352.5, 7.5, "Вода Инь, Император"⟩ : Mountain), by simp [MOUNTAINS], rfl, by norm_num [containsDeg]⟩

/-- Witness for C1: the partition clause instantiated at the concrete angle 100. -/
theorem mountains_sector_table_witness :
    (0 : ℚ) ≤ 100 ∧ (100 : ℚ) < 360 ∧
      (∃! m, m ∈ MOUNTAINS ∧ containsDeg m 100) :=
  ⟨by norm_num, by norm_num,
    mountains_sector_table.2.2.2.2.1 100 (by norm_num) (by norm_num)⟩


/-! ## Arc midpoint (`src/components/CompassOverlay.tsx` label computation,
`src/App.tsx` `fetchMountainAltitudes`) -/

/-- The source's mid-degree computation: `let s = startDegree,
e = endDegree; if (e < s) e += 360; (s + e) / 2`. -/
def midDegree (m : Mountain) : ℚ :=
  let s := m.startDegree
  let e := if m.endDegree < m.startDegree then m.endDegree + 360 else m.endDegree
  (s + e) / 2

/-- The arc-midpoint computation as the specification states it:
`midpoint = normalize((s + e) / 2)` with the wrap adjustment of
`midDegree`. -/
def midpointOf (m : Mountain) : ℚ := normalize (midDegree m)

/-- Strict interior of a sector's wrap-adjusted range. -/
def strictlyInside (m : Mountain) (x : ℚ) : Prop :=
  if m.endDegree < m.startDegree then m.startDegree < x ∨ x < m.endDegree
  else m.startDegree < x ∧ x < m.endDegree

lemma normalize_q15 : normalize (15 : ℚ) = 15 :=
  normalize_eq_self (by norm_num) (by norm_num)

lemma normalize_q30 : normalize (30 : ℚ) = 30 :=
  normalize_eq_self (by norm_num) (by norm_num)

lemma normalize_q45 : normalize (45 : ℚ) = 45 :=
  normalize_eq_self (by norm_num) (by norm_num)

lemma normalize_q60 : normalize (60 : ℚ) = 60 :=
  normalize_eq_self (by norm_num) (by norm_num)

lemma normalize_q75 : normalize (75 : ℚ) = 75 :=
  normalize_eq_self (by norm_num) (by norm_num)

lemma normalize_q90 : normalize (90 : ℚ) = 90 :=
  normalize_eq_self (by norm_num) (by norm_num)

lemma normalize_q105 : normalize (105 : ℚ) = 105 :=
  normalize_eq_self (by norm_num) (by norm_num)

lemma normalize_q120 : normalize (120 : ℚ) = 120 :=
  normalize_eq_self (by norm_num) (by norm_num)

lemma normalize_q135 : normalize (135 : ℚ) = 135 :=
  normalize_eq_self (by norm_num) (by norm_num)

lemma normalize_q150 : normalize (150 : ℚ) = 150 :=
  normalize_eq_self (by norm_num) (by norm_num)

lemma normalize_q165 : normalize (165 : ℚ) = 165 :=
  normalize_eq_self (by norm_num) (by norm_num)

lemma normalize_q180 : normalize (180 : ℚ) = 180 :=
  normalize_eq_self (by norm_num) (by norm_num)

lemma normalize_q195 : normalize (195 : ℚ) = 195 :=
  normalize_eq_self (by norm_num) (by norm_num)

lemma normalize_q210 : normalize (210 : ℚ) = 210 :=
  normalize_eq_self (by norm_num) (by norm_num)

lemma normalize_q225 : normalize (225 : ℚ) = 225 :=
  normalize_eq_self (by norm_num) (by norm_num)

lemma normalize_q240 : normalize (240 : ℚ) = 240 :=
  normalize_eq_self (by norm_num) (by norm_num)

lemma normalize_q255 : normalize (255 : ℚ) = 255 :=
  normalize_eq_self (by norm_num) (by norm_num)

lemma normalize_q270 : normalize (270 : ℚ) = 270 :=
  normalize_eq_self (by norm_num) (by norm_num)

lemma normalize_q285 : normalize (285 : ℚ) = 285 :=
  normalize_eq_self (by norm_num) (by norm_num)

lemma normalize_q300 : normalize (300 : ℚ) = 300 :=
  normalize_eq_self (by norm_num) (by norm_num)

lemma normalize_q315 : normalize (315 : ℚ) = 315 :=
  normalize_eq_self (by norm_num) (by norm_num)

lemma normalize_q330 : normalize (330 : ℚ) = 330 :=
  normalize_eq_self (by norm_num) (by norm_num)

lemma normalize_q345 : normalize (345 : ℚ) = 345 :=
  normalize_eq_self (by norm_num) (by norm_num)


/-- Claim C2: for every one of the 24 sectors, the arc-midpoint computation
(wrap-adjust the end, average, normalize) returns an angle in `[0, 360)`
that lies strictly within the sector's wrap-adjusted range; for the
wrap-around sector (direction code N2, 352.5 to 7.5) it returns 0, not 180. -/
theorem midpointOf_in_sector :
    ∀ m ∈ MOUNTAINS,
      (0 ≤ midpointOf m ∧ midpointOf m < 360) ∧
      strictlyInside m (midpointOf m) ∧
      (m.direction = "N2" → midpointOf m = 0 ∧ midpointOf m ≠ 180) := by
  intro m hm
  simp only [MOUNTAINS, List.mem_cons, List.not_mem_nil, or_false] at hm
  rcases hm with rfl|rfl|rfl|rfl|rfl|rfl|rfl|rfl|rfl|rfl|rfl|rfl|rfl|rfl|rfl|rfl|rfl|rfl|rfl|rfl|rfl|rfl|rfl|rfl <;>
    norm_num [midpointOf, midDegree, strictlyInside, normalize_q15, normalize_q30, normalize_q45, normalize_q60, normalize_q75, normalize_q90, normalize_q105, normalize_q120, normalize_q135, normalize_q150, normalize_q165, normalize_q180, normalize_q195, normalize_q210, normalize_q225, normalize_q240, normalize_q255, normalize_q270, normalize_q285, normalize_q300, normalize_q315, normalize_q330, normalize_q345, normalize_360] <;> decide

/-- Witness for C2: the theorem applied to the wrap-around sector N2. -/
theorem midpointOf_in_sector_witness :
    (⟨"n2", "子", "Zi", "Цзы (С2)", "Water", "N2", 352.5, 7.5, "Вода Инь, Император"⟩ : Mountain) ∈ MOUNTAINS ∧
      ((0 ≤ midpointOf ⟨"n2", "子", "Zi", "Цзы (С2)", "Water", "N2", 352.5, 7.5, "Вода Инь, Император"⟩ ∧
        midpointOf ⟨"n2", "子", "Zi", "Цзы (С2)", "Water", "N2", 352.5, 7.5, "Вода Инь, Император"⟩ < 360) ∧
      strictlyInside ⟨"n2", "子", "Zi", "Цзы (С2)", "Water", "N2", 352.5, 7.5, "Вода Инь, Император"⟩
        (midpointOf ⟨"n2", "子", "Zi", "Цзы (С2)", "Water", "N2", 352.5, 7.5, "Вода Инь, Император"⟩) ∧
      ((⟨"n2", "子", "Zi", "Цзы (С2)", "Water", "N2", 352.5, 7.5, "Вода Инь, Император"⟩ : Mountain).direction = "N2" →
        midpointOf ⟨"n2", "子", "Zi", "Цзы (С2)", "Water", "N2", 352.5, 7.5, "Вода Инь, Император"⟩ = 0 ∧
        midpointOf ⟨"n2", "子", "Zi", "Цзы (С2)", "Water", "N2", 352.5, 7.5, "Вода Инь, Император"⟩ ≠ 180)) :=
  ⟨by simp [MOUNTAINS], midpointOf_in_sector _ (by simp [MOUNTAINS])⟩

/-! ## Normalization contract (`src/geminiService.ts`, `src/App.tsx`) -/

/-- Claim C8: the angle normalization `((x % 360) + 360) % 360` returns a
value in `[0, 360)` for every finite input, including negative inputs and
inputs beyond one full turn, and it is idempotent. -/
theorem normalize_range_and_idem :
    ∀ x : ℚ, (0 ≤ normalize x ∧ normalize x < 360) ∧
      normalize (normalize x) = normalize x :=
  fun x => ⟨normalize_bounds x, normalize_idem x⟩

/-! ## Drag release snapping (`src/components/CompassOverlay.tsx` `handleUp`)
and the facade-rotation wrap (`src/App.tsx` `handleFacadeRotationChange`) -/

/-- JavaScript's `Math.round`: round half toward positive infinity. -/
def jsRound (x : ℚ) : ℤ := ⌊x + 1 / 2⌋

/-- The release snap of `handleUp`: `Math.round(currentRot * 2) / 2`. -/
def snappedRot (currentRot : ℚ) : ℚ := ((jsRound (currentRot * 2) : ℤ) : ℚ) / 2

/-- `handleFacadeRotationChange` from `src/App.tsx`: one conditional
correction in each direction. -/
def handleFacadeRotationChange (val : ℚ) : ℚ :=
  let r1 := if val ≥ 360 then val - 360 else val
  if r1 < 0 then r1 + 360 else r1

/-- Claim C4: the value reported on drag release is `round(rotation*2)/2`,
the stored value (after the application's wrap) is an exact multiple of 0.5,
and for release rotations in `[0, 360)` the stored value stays in `[0, 360)`. -/
theorem handleUp_snap_release :
    ∀ r : ℚ,
      snappedRot r = ((jsRound (r * 2) : ℤ) : ℚ) / 2 ∧
      (∃ k : ℤ, handleFacadeRotationChange (snappedRot r) = (k : ℚ) / 2) ∧
      (0 ≤ r → r < 360 →
        0 ≤ handleFacadeRotationChange (snappedRot r) ∧
        handleFacadeRotationChange (snappedRot r) < 360) := by
  intro r
  refine ⟨rfl, ?_, ?_⟩
  · simp only [handleFacadeRotationChange, snappedRot]
    split_ifs
    · exact ⟨jsRound (r * 2), by ring⟩
    · exact ⟨jsRound (r * 2) - 720, by push_cast; ring⟩
    · exact ⟨jsRound (r * 2) + 720, by push_cast; ring⟩
    · exact ⟨jsRound (r * 2), rfl⟩
  · intro hr0 hr1
    have hk0 : (0 : ℤ) ≤ jsRound (r * 2) := by
      rw [jsRound]
      exact Int.le_floor.mpr (by push_cast; linarith)
    have hk1 : jsRound (r * 2) ≤ 720 := by
      have h721 : jsRound (r * 2) < 721 := by
        rw [jsRound]
        exact Int.floor_lt.mpr (by push_cast; linarith)
      omega
    have hs0 : 0 ≤ snappedRot r := by
      rw [snappedRot]
      have : (0 : ℚ) ≤ ((jsRound (r * 2) : ℤ) : ℚ) := by exact_mod_cast hk0
      linarith
    have hs1 : snappedRot r ≤ 360 := by
      rw [snappedRot]
      have : ((jsRound (r * 2) : ℤ) : ℚ) ≤ 720 := by exact_mod_cast hk1
      linarith
    simp only [handleFacadeRotationChange]
    split_ifs <;> constructor <;> linarith

/-- Witness for C4: release at rotation 123.4 lands on 123.5, a multiple of
0.5 inside `[0, 360)`. -/
theorem handleUp_snap_release_witness :
    (0 : ℚ) ≤ 123.4 ∧ (123.4 : ℚ) < 360 ∧
      ((∃ k : ℤ, handleFacadeRotationChange (snappedRot 123.4) = (k : ℚ) / 2) ∧
        (0 ≤ handleFacadeRotationChange (snappedRot 123.4) ∧
          handleFacadeRotationChange (snappedRot 123.4) < 360)) :=
  ⟨by norm_num, by norm_num,
    (handleUp_snap_release 123.4).2.1,
    (handleUp_snap_release 123.4).2.2 (by norm_num) (by norm_num)⟩

/-- Claim C10: the facade-rotation setter applies at most one correction of
360 in each direction, so the stored value lies in `[0, 360)` exactly when
the input lies in `[-360, 720)`; consequently slider input in `[0, 360]` and
half-degree step input from a state in `[0, 360)` preserve the invariant. -/
theorem facadeRotation_wrap_invariant :
    ∀ v : ℚ,
      ((0 ≤ handleFacadeRotationChange v ∧ handleFacadeRotationChange v < 360) ↔
        (-360 ≤ v ∧ v < 720)) ∧
      (0 ≤ v → v ≤ 360 →
        0 ≤ handleFacadeRotationChange v ∧ handleFacadeRotationChange v < 360) ∧
      (0 ≤ v → v < 360 →
        (0 ≤ handleFacadeRotationChange (v + 0.5) ∧
          handleFacadeRotationChange (v + 0.5) < 360) ∧
        (0 ≤ handleFacadeRotationChange (v - 0.5) ∧
          handleFacadeRotationChange (v - 0.5) < 360)) := by
  have key : ∀ w : ℚ,
      (0 ≤ handleFacadeRotationChange w ∧ handleFacadeRotationChange w < 360) ↔
        (-360 ≤ w ∧ w < 720) := by
    intro w
    simp only [handleFacadeRotationChange]
    split_ifs <;> constructor <;> rintro ⟨a1, a2⟩ <;> exact ⟨by linarith, by linarith⟩
  intro v
  refine ⟨key v, ?_, ?_⟩
  · intro h0 h1
    exact (key v).mpr ⟨by linarith, by linarith⟩
  · intro h0 h1
    exact ⟨(key (v + 0.5)).mpr ⟨by linarith, by linarith⟩,
      (key (v - 0.5)).mpr ⟨by linarith, by linarith⟩⟩

/-- Witness for C10: the invariant clauses instantiated at 359.75. -/
theorem facadeRotation_wrap_invariant_witness :
    (0 : ℚ) ≤ 359.75 ∧ (359.75 : ℚ) < 360 ∧ (359.75 : ℚ) ≤ 360 ∧
      ((0 ≤ handleFacadeRotationChange 359.75 ∧
          handleFacadeRotationChange 359.75 < 360) ∧
        (0 ≤ handleFacadeRotationChange (359.75 + 0.5) ∧
          handleFacadeRotationChange (359.75 + 0.5) < 360)) :=
  ⟨by norm_num, by norm_num, by norm_num,
    (facadeRotation_wrap_invariant 359.75).2.1 (by norm_num) (by norm_num),
    ((facadeRotation_wrap_invariant 359.75).2.2 (by norm_num) (by norm_num)).1⟩


/-! ## Fetch-backed services, with the transport outcome as a parameter -/

/-- Outcome of a `fetch` call: a rejected promise (caught by the source's
`catch`), a response with `ok` false, or an OK response with a parsed body. -/
inductive FetchOutcome (β : Type) where
  | fail : FetchOutcome β
  | notOk : FetchOutcome β
  | ok : β → FetchOutcome β

/-- A geocoding candidate (`SearchResult` in `src/services/geoService.ts`). -/
structure SearchResult where
  place_id : ℤ
  lat : String
  lon : String
  display_name : String

/-- Parsed JSON body of the geocoding response: an array of results, or
anything failing the source's `Array.isArray` check. -/
inductive SearchBody where
  | arr : List SearchResult → SearchBody
  | notArr : SearchBody

/-- `searchAddress` from `src/services/geoService.ts`; the `Bool` component
records whether `fetch` was reached. Queries that are empty or shorter than
3 characters return before the network call. -/
def searchAddress (query : String) (out : FetchOutcome SearchBody) :
    List SearchResult × Bool :=
  if query.isEmpty || query.length < 3 then ([], false)
  else
    match out with
    | .fail => ([], true)
    | .notOk => ([], true)
    | .ok (.arr data) => (data, true)
    | .ok .notArr => ([], true)

/-- Claim C7: queries of fewer than 3 characters (including the empty
string) return an empty result sequence without any network call, and
transport failure, a non-OK response, or a non-array body also yield an
empty sequence rather than an error. -/
theorem searchAddress_guards :
    ∀ (q : String) (out : FetchOutcome SearchBody),
      (q.length < 3 → searchAddress q out = ([], false)) ∧
      (searchAddress q FetchOutcome.fail).1 = [] ∧
      (searchAddress q FetchOutcome.notOk).1 = [] ∧
      (searchAddress q (FetchOutcome.ok SearchBody.notArr)).1 = [] := by
  intro q out
  refine ⟨?_, ?_, ?_, ?_⟩
  · intro hq
    simp [searchAddress, hq]
  · simp only [searchAddress]
    split_ifs <;> rfl
  · simp only [searchAddress]
    split_ifs <;> rfl
  · simp only [searchAddress]
    split_ifs <;> rfl

/-- Witness for C7: the two-character query "ab" short-circuits. -/
theorem searchAddress_guards_witness :
    ("ab" : String).length < 3 ∧
      searchAddress "ab" (FetchOutcome.ok (SearchBody.arr [])) = ([], false) :=
  ⟨by decide,
    (searchAddress_guards "ab" (FetchOutcome.ok (SearchBody.arr []))).1 (by decide)⟩

/-- A latitude/longitude pair. -/
structure Coordinate where
  lat : ℚ
  lon : ℚ

/-- Parsed JSON body of the elevation response; `elevation := none` stands
for an absent (falsy) field in the source's `data.elevation || ...`. -/
structure BatchBody where
  elevation : Option (List (Option ℚ))

/-- `getBatchAltitudes` from `src/services/geoService.ts`: empty input
short-circuits; transport failure and non-OK responses yield an all-null
array of the input length; a truthy `elevation` array is returned as-is. -/
def getBatchAltitudes (locations : List Coordinate)
    (out : FetchOutcome BatchBody) : List (Option ℚ) :=
  if locations.length = 0 then []
  else
    match out with
    | .fail => List.replicate locations.length none
    | .notOk => List.replicate locations.length none
    | .ok body =>
      match body.elevation with
      | some values => values
      | none => List.replicate locations.length none

/-- Claim C5 (failing input): requesting 3 points while the service supplies
only 2 values returns the 2-element service array as-is, not a 3-element
array with a null in the missing slot. -/
theorem getBatchAltitudes_short_response :
    getBatchAltitudes [⟨55, 37⟩, ⟨56, 38⟩, ⟨57, 39⟩]
        (FetchOutcome.ok ⟨some [some 120, some 130]⟩) = [some 120, some 130] ∧
      (getBatchAltitudes [⟨55, 37⟩, ⟨56, 38⟩, ⟨57, 39⟩]
        (FetchOutcome.ok ⟨some [some 120, some 130]⟩)).length ≠ 3 := by
  have he : getBatchAltitudes [⟨55, 37⟩, ⟨56, 38⟩, ⟨57, 39⟩]
      (FetchOutcome.ok ⟨some [some 120, some 130]⟩) = [some 120, some 130] := rfl
  exact ⟨he, by rw [he]; decide⟩

/-! ## Share-URL round trip (`src/App.tsx` `handleOpenShare` and the state
initializers) -/

/-- Orientation state of the application (`src/App.tsx`). -/
structure AppState where
  facadeRotation : ℚ
  declination : ℚ
  useDeclination : Bool
  selectedMountain : Option Mountain

/-- The share-URL parameters written by `handleOpenShare`: `rot` and `dec`
with two decimal places, `useDec` as the string of the flag, `m` only when
a sector is selected. -/
structure ShareParams where
  rot : ℚ
  dec : ℚ
  useDec : String
  m : Option String

/-- The value denoted by `x.toFixed(2)`: `x` rounded to two decimal places,
ties toward positive infinity. -/
def toFixed2 (x : ℚ) : ℚ := ((⌊x * 100 + 1 / 2⌋ : ℤ) : ℚ) / 100

/-- `handleOpenShare` from `src/App.tsx`, restricted to the orientation
parameters it writes into the URL. -/
def handleOpenShare (st : AppState) : ShareParams :=
  { rot := toFixed2 st.facadeRotation,
    dec := toFixed2 st.declination,
    useDec := if st.useDeclination then "true" else "false",
    m := st.selectedMountain.map Mountain.id }

/-- The state initializers of `src/App.tsx` reading the parameters back:
`parseFloat` of the formatted numbers, `useDec === 'true'`, and
`MOUNTAINS.find(m => m.id === id)`. -/
def initFromParams (p : ShareParams) : AppState :=
  { facadeRotation := p.rot,
    declination := p.dec,
    useDeclination := p.useDec == "true",
    selectedMountain :=
      match p.m with
      | some mid => MOUNTAINS.find? (fun m => m.id == mid)
      | none => none }

lemma toFixed2_close (x : ℚ) : |toFixed2 x - x| ≤ 1 / 200 := by
  rw [toFixed2, abs_le]
  have hl1 : ((⌊x * 100 + 1 / 2⌋ : ℤ) : ℚ) ≤ x * 100 + 1 / 2 := Int.floor_le _
  have hl2 : x * 100 + 1 / 2 < ((⌊x * 100 + 1 / 2⌋ : ℤ) : ℚ) + 1 :=
    Int.lt_floor_add_one _
  constructor <;> linarith

lemma find_by_id (m : Mountain) (hm : m ∈ MOUNTAINS) :
    MOUNTAINS.find? (fun x => x.id == m.id) = some m := by
  simp only [MOUNTAINS, List.mem_cons, List.not_mem_nil, or_false] at hm
  rcases hm with rfl|rfl|rfl|rfl|rfl|rfl|rfl|rfl|rfl|rfl|rfl|rfl|rfl|rfl|rfl|rfl|rfl|rfl|rfl|rfl|rfl|rfl|rfl|rfl <;>
    simp [MOUNTAINS, List.find?]

/-- Claim C6: building a share URL and re-parsing it reproduces the facade
rotation within 0.01 degrees (the `rot` parameter carries 2 decimal
places), and reproduces the declination (within the same tolerance), the
`useDeclination` flag, and the selected sector. -/
theorem share_url_roundtrip :
    ∀ st : AppState, 0 ≤ st.facadeRotation → st.facadeRotation < 360 →
      (∀ m, st.selectedMountain = some m → m ∈ MOUNTAINS) →
      |(initFromParams (handleOpenShare st)).facadeRotation
          - st.facadeRotation| ≤ 1 / 100 ∧
      |(initFromParams (handleOpenShare st)).declination
          - st.declination| ≤ 1 / 100 ∧
      (initFromParams (handleOpenShare st)).useDeclination = st.useDeclination ∧
      (initFromParams (handleOpenShare st)).selectedMountain = st.selectedMountain := by
  intro st h0 h1 hsel
  obtain ⟨fr, dec, ud, sel⟩ := st
  refine ⟨le_trans (toFixed2_close fr) (by norm_num),
    le_trans (toFixed2_close dec) (by norm_num), ?_, ?_⟩
  · cases ud <;> simp [initFromParams, handleOpenShare]
  · cases sel with
    | none => simp [initFromParams, handleOpenShare]
    | some m =>
      have hm : m ∈ MOUNTAINS := hsel m rfl
      simp [initFromParams, handleOpenShare, find_by_id m hm]

/-- Witness for C6: a round trip from rotation 123.456 with the N2 sector
selected. -/
theorem share_url_roundtrip_witness :
    (0 : ℚ) ≤ 123.456 ∧ (123.456 : ℚ) < 360 ∧
      (|(initFromParams (handleOpenShare
            ⟨123.456, -3.33, true, some ⟨"n2", "子", "Zi", "Цзы (С2)", "Water", "N2", 352.5, 7.5, "Вода Инь, Император"⟩⟩)).facadeRotation
          - 123.456| ≤ 1 / 100 ∧
        |(initFromParams (handleOpenShare
            ⟨123.456, -3.33, true, some ⟨"n2", "子", "Zi", "Цзы (С2)", "Water", "N2", 352.5, 7.5, "Вода Инь, Император"⟩⟩)).declination
          - (-3.33)| ≤ 1 / 100 ∧
        (initFromParams (handleOpenShare
            ⟨123.456, -3.33, true, some ⟨"n2", "子", "Zi", "Цзы (С2)", "Water", "N2", 352.5, 7.5, "Вода Инь, Император"⟩⟩)).useDeclination = true ∧
        (initFromParams (handleOpenShare
            ⟨123.456, -3.33, true, some ⟨"n2", "子", "Zi", "Цзы (С2)", "Water", "N2", 352.5, 7.5, "Вода Инь, Император"⟩⟩)).selectedMountain =
          some ⟨"n2", "子", "Zi", "Цзы (С2)", "Water", "N2", 352.5, 7.5, "Вода Инь, Император"⟩) :=
  ⟨by norm_num, by norm_num,
    share_url_roundtrip
      ⟨123.456, -3.33, true, some ⟨"n2", "子", "Zi", "Цзы (С2)", "Water", "N2", 352.5, 7.5, "Вода Инь, Император"⟩⟩
      (by norm_num) (by norm_num)
      (by intro m hm; cases hm; simp [MOUNTAINS])⟩

/-! ## AI analysis credential guard (`src/services/geminiService.ts`) -/

/-- JavaScript falsiness of the `API_KEY` environment variable: absent or
empty. -/
def keyFalsy (apiKey : Option String) : Bool :=
  match apiKey with
  | none => true
  | some s => s.isEmpty

/-- Whether an `Except` is an error. -/
def isErr {e a : Type} : Except e a → Bool
  | .error _ => true
  | .ok _ => false

/-- `analyzeDirection` from `src/services/geminiService.ts`, abstracted over
the credential and the outcome of the model call (error message and
response text are optional, mirroring `error.message || ...` and
`response.text || ...`); the `Bool` component records whether the model
call was attempted. -/
def analyzeDirection (apiKey : Option String)
    (call : Except (Option String) (Option String)) :
    Except String String × Bool :=
  if keyFalsy apiKey then
    (Except.error "API Key is missing. Please set the API_KEY environment variable.",
      false)
  else
    match call with
    | .error msg =>
      (Except.error (match msg with
        | some s => if s.isEmpty then "Ошибка соединения с духами ИИ." else s
        | none => "Ошибка соединения с духами ИИ."), true)
    | .ok text =>
      (Except.ok (match text with
        | some s => if s.isEmpty then "Не удалось получить ответ от оракула." else s
        | none => "Не удалось получить ответ от оракула."), true)

/-- Claim C9: a falsy credential makes the analysis fail with the fixed
user-visible message before the model call is attempted, and the result is
an error exactly when the credential is falsy or the model call failed. -/
theorem analyzeDirection_credential_guard :
    ∀ (apiKey : Option String) (call : Except (Option String) (Option String)),
      (keyFalsy apiKey = true →
        analyzeDirection apiKey call =
          (Except.error "API Key is missing. Please set the API_KEY environment variable.",
            false)) ∧
      (isErr (analyzeDirection apiKey call).1 = true ↔
        (keyFalsy apiKey = true ∨ isErr call = true)) := by
  intro apiKey call
  constructor
  · intro h
    simp [analyzeDirection, h]
  · by_cases h : keyFalsy apiKey = true
    · simp [analyzeDirection, h, isErr]
    · rcases call with msg | text <;> simp [analyzeDirection, h, isErr]

/-- Witness for C9: a missing credential fails immediately, with no model
call, even though the model call would have succeeded. -/
theorem analyzeDirection_credential_guard_witness :
    keyFalsy none = true ∧
      analyzeDirection none (Except.ok (some "text")) =
        (Except.error "API Key is missing. Please set the API_KEY environment variable.",
          false) :=
  ⟨rfl, (analyzeDirection_credential_guard none (Except.ok (some "text"))).1 rfl⟩


/-! ## Pointer-to-angle conversion (`calculateRotation` in
`src/components/CompassOverlay.tsx`) -/

/-- JavaScript's `Math.atan2(y, x)`: the argument of the complex number
`x + y*i`, in `(-pi, pi]`. -/
noncomputable def atan2 (y x : ℝ) : ℝ := Complex.arg ⟨x, y⟩

/-- The angle computation of `calculateRotation`:
`atan2(y, x) * 180 / PI + 90`, then a single `+360` correction when the
result is negative. -/
noncomputable def calculateRotationAngle (clientX clientY centerX centerY : ℝ) : ℝ :=
  let x := clientX - centerX
  let y := clientY - centerY
  let angle := atan2 y x * 180 / Real.pi + 90
  if angle < 0 then angle + 360 else angle

lemma rawAngle_bounds (y x : ℝ) :
    -90 < atan2 y x * 180 / Real.pi + 90 ∧ atan2 y x * 180 / Real.pi + 90 ≤ 270 := by
  have hp := Real.pi_pos
  have h1 : atan2 y x ≤ Real.pi := Complex.arg_le_pi _
  have h2 : -Real.pi < atan2 y x := Complex.neg_pi_lt_arg _
  constructor
  · have hlo : -180 < atan2 y x * 180 / Real.pi := by
      rw [lt_div_iff₀ hp]; nlinarith
    linarith
  · have hhi : atan2 y x * 180 / Real.pi ≤ 180 := by
      rw [div_le_iff₀ hp]; nlinarith
    linarith

/-- Claim C3: the pointer-to-angle conversion returns
`normalize(atan2(py - cy, px - cx) * 180 / pi + 90)`, a value in
`[0, 360)`; a pointer directly above the center yields 0 and a pointer
directly right of the center yields 90. -/
theorem calculateRotation_bearing :
    ∀ px py cx cy d : ℝ, 0 < d →
      (0 ≤ calculateRotationAngle px py cx cy ∧
        calculateRotationAngle px py cx cy < 360) ∧
      calculateRotationAngle px py cx cy =
        normalize (atan2 (py - cy) (px - cx) * 180 / Real.pi + 90) ∧
      calculateRotationAngle cx (cy - d) cx cy = 0 ∧
      calculateRotationAngle (cx + d) cy cx cy = 90 := by
  intro px py cx cy d hd
  obtain ⟨hb1, hb2⟩ := rawAngle_bounds (py - cy) (px - cx)
  refine ⟨?_, ?_, ?_, ?_⟩
  · simp only [calculateRotationAngle]
    split_ifs with h <;> constructor <;> linarith
  · simp only [calculateRotationAngle]
    split_ifs with h
    · rw [normalize_eq_add_360 (by linarith) h]
    · rw [normalize_eq_self (not_lt.mp h) (by linarith)]
  · have hxy : cy - d - cy = -d := by ring
    have harg : atan2 (-d) 0 = -(Real.pi / 2) := by
      have hmk : (⟨0, -d⟩ : ℂ) = (d : ℂ) * (-Complex.I) := by
        apply Complex.ext <;> simp
      rw [atan2, hmk, Complex.arg_real_mul _ hd, Complex.arg_neg_I]
    have h1 : -(Real.pi / 2) * 180 / Real.pi = -90 := by
      rw [div_eq_iff Real.pi_ne_zero]; ring
    have hval : -(Real.pi / 2) * 180 / Real.pi + 90 = 0 := by linarith
    simp only [calculateRotationAngle, sub_self, hxy, harg, hval]
    rw [if_neg (lt_irrefl 0)]
  · have hxx : cx + d - cx = d := by ring
    have harg : atan2 0 d = 0 := by
      have hmk : (⟨d, 0⟩ : ℂ) = ((d : ℝ) : ℂ) := by
        apply Complex.ext <;> simp
      rw [atan2, hmk, Complex.arg_ofReal_of_nonneg hd.le]
    have hval : (0 : ℝ) * 180 / Real.pi + 90 = 90 := by
      simp
    simp only [calculateRotationAngle, sub_self, hxx, harg, hval]
    rw [if_neg (by norm_num : ¬ (90 : ℝ) < 0)]

/-- Witness for C3: the theorem applied at pointer (3, 4), center (0, 0),
and offset 1. -/
theorem calculateRotation_bearing_witness :
    (0 : ℝ) < 1 ∧
      ((0 ≤ calculateRotationAngle 3 4 0 0 ∧
          calculateRotationAngle 3 4 0 0 < 360) ∧
        calculateRotationAngle 3 4 0 0 =
          normalize (atan2 (4 - 0) (3 - 0) * 180 / Real.pi + 90) ∧
        calculateRotationAngle 0 (0 - 1) 0 0 = 0 ∧
        calculateRotationAngle (0 + 1) 0 0 0 = 90) :=
  ⟨by norm_num, calculateRotation_bearing 3 4 0 0 1 (by norm_num)⟩

end Compass24
